import Mathlib

/-!
# Verification of the code-runner service (`src/app.js`)

A shallow embedding of the request pipeline of `src/app.js`:
the `POST /run-program` handler (validation, workspace lifecycle,
source/input materialization, per-language command synthesis, outcome
classification) and the cluster supervisor.

Conventions of the embedding:
* JS strings are Lean `String`s (lengths are counted in characters;
  all inputs of interest here are ASCII, where this agrees with JS).
* An absent `code`/`language` field is modelled as `""`; JS treats both
  `undefined` and `""` as falsy in the `!code || !language` check, and
  the handler only reads `.length`/`.toLowerCase()` after that check.
* The JSON `input` field is modelled by `InputVal`: absent, an array of
  strings, or a plain string (the non-array case exercised by the spec).
* Filesystem effects and the `exec` callback are modelled by an event
  trace (`Ev`) and by oracles: `fsError` (does `fs.writeFile` throw, and
  with which message) and `ExecOutcome` (what the child process did).
-/

namespace CodeRunner

/-- JS whitespace as used by `\s` in regexes and by `String.prototype.trim`
(ASCII part plus NBSP; the handler only ever meets ASCII here). -/
def isJsSpace (c : Char) : Bool :=
  c = ' ' || c = '\t' || c = '\n' || c = '\r' ||
  c = '\x0b' || c = '\x0c' || c = ' '

/-- JS `String.prototype.trim`: drop leading and trailing whitespace. -/
def jsTrim (s : String) : String :=
  String.mk (((s.data.dropWhile isJsSpace).reverse.dropWhile isJsSpace).reverse)

/-- `needle` is a prefix of `hay` (char lists). -/
def startsWithList : List Char → List Char → Bool
  | _, [] => true
  | [], _ :: _ => false
  | a :: hay, b :: ned => a = b && startsWithList hay ned

/-- `needle` occurs contiguously inside `hay` (char lists). -/
def containsList (hay ned : List Char) : Bool :=
  match hay with
  | [] => ned.isEmpty
  | _ :: t => startsWithList hay ned || containsList t ned

/-- JS `String.prototype.includes`: substring containment. -/
def strContains (s pat : String) : Bool :=
  containsList s.data pat.data

/-- JS `String.prototype.toLowerCase` (character-wise; all language names
met here are ASCII, where this agrees with JS). -/
def jsToLower (s : String) : String :=
  String.mk (s.data.map Char.toLower)

/-- Start of a JS identifier, per the regex class `[a-zA-Z_$]`. -/
def isIdentStart (c : Char) : Bool :=
  c.isAlpha || c = '_' || c = '$'

/-- Continuation of a JS identifier, per the regex class `[a-zA-Z\d_$]`. -/
def isIdentChar (c : Char) : Bool :=
  c.isAlpha || c.isDigit || c = '_' || c = '$'

/-- Attempt to match the regex `class\s+([a-zA-Z_$][a-zA-Z\d_$]*)` at the
start of the given character list, returning the capture group. The
literal `class` must be followed by at least one whitespace and then an
identifier; the identifier capture is greedy. -/
def classAt (cs : List Char) : Option String :=
  match cs with
  | 'c' :: 'l' :: 'a' :: 's' :: 's' :: rest =>
    let ws := rest.takeWhile isJsSpace
    let afterWs := rest.dropWhile isJsSpace
    if ws.isEmpty then none
    else
      match afterWs with
      | [] => none
      | c :: cs2 =>
        if isIdentStart c then some (String.mk (c :: cs2.takeWhile isIdentChar))
        else none
  | _ => none

/-- `code.match(/class\s+([a-zA-Z_$][a-zA-Z\d_$]*)/)`: the capture group of
the leftmost match, if any. -/
def classMatch : List Char → Option String
  | [] => none
  | c :: rest =>
    match classAt (c :: rest) with
    | some s => some s
    | none => classMatch rest

/-- The `fileExtensions` lookup table of the handler. -/
def fileExtensions (lang : String) : Option String :=
  if lang = "java" then some "java"
  else if lang = "python" then some "py"
  else if lang = "javascript" then some "js"
  else if lang = "c" then some "c"
  else if lang = "cpp" then some "cpp"
  else if lang = "csharp" then some "cs"
  else none

/-- The JSON `input` field: absent, an array of strings, or a plain
string (non-array). -/
inductive InputVal
  | absent
  | arr (xs : List String)
  | str (s : String)
deriving DecidableEq, Repr

/-- JS truthiness of the `input` value: `undefined` is falsy, an array is
always truthy (even `[]`), a string is truthy iff non-empty. -/
def InputVal.truthy : InputVal → Bool
  | .absent => false
  | .arr _ => true
  | .str s => s ≠ ""

/-- JS `input.length`: number of entries for an array, number of
characters for a string (never read on `absent`, which is falsy). -/
def InputVal.jsLength : InputVal → Nat
  | .absent => 0
  | .arr xs => xs.length
  | .str s => s.length

/-- JS `Array.isArray`. -/
def InputVal.isArray : InputVal → Bool
  | .arr _ => true
  | _ => false

/-- `path.basename(fileName, ".java")`: strip a trailing `".java"`.
(`fileName` never contains a path separator here.) -/
def stripJavaSuffix (f : String) : String :=
  if startsWithList f.data.reverse (".java".data.reverse) then
    String.mk (f.data.take (f.data.length - 5))
  else f

/-- Append the `< inputFile` stdin redirection when an input file exists;
each `case` of the source writes the whole command twice, whose value is
exactly this concatenation. -/
def withRedirect (cmd : String) : Option String → String
  | none => cmd
  | some p => cmd ++ " < " ++ p

/-- The `switch (language.toLowerCase())` that synthesizes the execution
command from the workspace paths. The default (unreachable: the language
was already validated against `fileExtensions`) yields `""`. -/
def executionCommand (lang tempDir filePath fileName : String)
    (inputFilePath : Option String) : String :=
  if lang = "java" then
    withRedirect
      ("javac " ++ filePath ++ " && java -cp " ++ tempDir ++ " " ++
        stripJavaSuffix fileName) inputFilePath
  else if lang = "python" then
    withRedirect ("python3 " ++ filePath) inputFilePath
  else if lang = "javascript" then
    withRedirect ("node " ++ filePath) inputFilePath
  else if lang = "c" then
    withRedirect
      ("gcc " ++ filePath ++ " -o " ++ (tempDir ++ "/program") ++ " && " ++
        (tempDir ++ "/program")) inputFilePath
  else if lang = "cpp" then
    withRedirect
      ("g++ " ++ filePath ++ " -o " ++ (tempDir ++ "/program") ++ " && " ++
        (tempDir ++ "/program")) inputFilePath
  else if lang = "csharp" then
    withRedirect
      ("mcs " ++ filePath ++ " -out:" ++ (tempDir ++ "/Program.exe") ++
        " && mono " ++ (tempDir ++ "/Program.exe")) inputFilePath
  else ""

/-- The JSON response envelope together with the HTTP status it is sent
with (`res.status(status).json({responseCode, output, errorMessage})`). -/
structure Response where
  status : Nat
  responseCode : Nat
  output : String
  errorMessage : String
deriving DecidableEq, Repr

/-- Observable events of one request, in order: workspace creation,
source/input file writes, process spawn, workspace cleanup, response
delivery. -/
inductive Ev
  | mkdir
  | writeSource (fileName content : String)
  | writeInput (content : String)
  | spawn (cmd : String)
  | cleanupDir
  | respond
deriving DecidableEq, Repr

/-- What the `exec` child process did: killed by the timeout
(`error.killed`), failed with captured stderr and an error message, or
exited successfully with captured stdout. -/
inductive ExecOutcome
  | timeout
  | err (stderr msg : String)
  | ok (stdout : String)
deriving DecidableEq, Repr

/-- Result of one request: the response envelope and the ordered event
trace. -/
structure HandlerResult where
  response : Response
  trace : List Ev
deriving DecidableEq, Repr

/-- The `exec(executionCommand, {timeout: 300000}, callback)` step: the
callback first awaits `cleanup(tempDir)`, then classifies the outcome. -/
def runExec (language tempDir fileName : String) (inputContent : Option String)
    (code : String) (outcome : ExecOutcome) : HandlerResult :=
  let filePath := tempDir ++ "/" ++ fileName
  let inputFilePath : Option String :=
    match inputContent with
    | some _ => some (tempDir ++ "/input.txt")
    | none => none
  let cmd := executionCommand (jsToLower language) tempDir filePath fileName inputFilePath
  let pre : List Ev :=
    match inputContent with
    | some c => [.mkdir, .writeSource fileName code, .writeInput c]
    | none => [.mkdir, .writeSource fileName code]
  match outcome with
  | .timeout =>
    ⟨⟨500, 202, "Execution timed out after 30 seconds.", ""⟩,
      pre ++ [.spawn cmd, .cleanupDir, .respond]⟩
  | .err stderr emsg =>
    let isCompilationError := strContains stderr "error"
    ⟨⟨500, 202,
      (if jsTrim stderr = "" then emsg else jsTrim stderr),
      (if isCompilationError then "Compilation error occurred."
       else "Runtime error occurred.")⟩,
      pre ++ [.spawn cmd, .cleanupDir, .respond]⟩
  | .ok stdout =>
    ⟨⟨200, 201, jsTrim stdout, ""⟩,
      pre ++ [.spawn cmd, .cleanupDir, .respond]⟩

/-- The response envelope the `exec` callback delivers for each process
outcome (the Result Classifier): timeout, error (compile vs. runtime by
the `stderr.includes("error")` heuristic, output `stderr.trim() ||
error.message`), success. -/
def execResponseOf : ExecOutcome → Response
  | .timeout => ⟨500, 202, "Execution timed out after 30 seconds.", ""⟩
  | .err stderr emsg =>
    ⟨500, 202, (if jsTrim stderr = "" then emsg else jsTrim stderr),
      (if strContains stderr "error" then "Compilation error occurred."
       else "Runtime error occurred.")⟩
  | .ok stdout => ⟨200, 201, jsTrim stdout, ""⟩

/-- The `try { ... } catch (err) { ... }` block of the handler: write the
source file (`fsError` oracle says whether `fs.writeFile` throws, and
with which message), prepare the input file when `input` is truthy
(`prepareInputFile` throws on a non-array), synthesize the command and
run it. Any throw is caught, the workspace cleaned up, and a 202
internal-error envelope returned with the error's message as output. -/
def tryBlock (code language : String) (input : InputVal)
    (tempDir fileName : String) (fsError : Option String)
    (outcome : ExecOutcome) : HandlerResult :=
  match fsError with
  | some emsg =>
    ⟨⟨500, 202, emsg, "Internal server error occurred."⟩,
      [.mkdir, .cleanupDir, .respond]⟩
  | none =>
    if input.truthy then
      match input with
      | .arr xs =>
        runExec language tempDir fileName
          (some (String.intercalate "\n" xs)) code outcome
      | _ =>
        ⟨⟨500, 202, "Input should be an array of strings.",
            "Internal server error occurred."⟩,
          [.mkdir, .writeSource fileName code, .cleanupDir, .respond]⟩
    else
      runExec language tempDir fileName none code outcome

/-- The `POST /run-program` handler of `src/app.js`, lines 87-251:
required-field check, size check, `fs.mkdir` of the per-request
workspace `path.join(__dirname, "temp", uuidv4())` (modelled as
`dirname ++ "/temp/" ++ token`), language lookup, Java class-name
extraction, then the try block. -/
def runProgram (code language : String) (input : InputVal)
    (dirname token : String) (fsError : Option String)
    (outcome : ExecOutcome) : HandlerResult :=
  if code = "" ∨ language = "" then
    ⟨⟨400, 203, "Code and language are required.",
        "Code and language are required."⟩, [.respond]⟩
  else if code.length > 5000 ∨ (input.truthy ∧ input.jsLength > 1000) then
    ⟨⟨400, 203, "Code or input is too large. Please limit their sizes.", ""⟩,
      [.respond]⟩
  else
    let tempDir := dirname ++ "/temp/" ++ token
    match fileExtensions (jsToLower language) with
    | none =>
      ⟨⟨400, 203, "Unsupported language.", "Unsupported language."⟩,
        [.mkdir, .cleanupDir, .respond]⟩
    | some ext =>
      if jsToLower language = "java" then
        match classMatch code.data with
        | some cn =>
          tryBlock code language input tempDir (cn ++ ".java") fsError outcome
        | none =>
          ⟨⟨400, 400, "Invalid Java code. Class name is missing.", ""⟩,
            [.mkdir, .cleanupDir, .respond]⟩
      else
        tryBlock code language input tempDir ("Program." ++ ext) fsError outcome

/-- The workspace directory was created (`fs.mkdir` ran). -/
def HandlerResult.created (r : HandlerResult) : Bool :=
  r.trace.any fun e => match e with | .mkdir => true | _ => false

/-- Number of `cleanup(tempDir)` invocations in the trace. -/
def HandlerResult.cleanups (r : HandlerResult) : Nat :=
  r.trace.countP fun e => match e with | .cleanupDir => true | _ => false

/-- The command passed to `exec`, if a process was spawned. -/
def HandlerResult.command (r : HandlerResult) : Option String :=
  r.trace.findSome? fun e => match e with | .spawn c => some c | _ => none

/-- The content written to `input.txt`, if the input file was written. -/
def HandlerResult.inputFile (r : HandlerResult) : Option String :=
  r.trace.findSome? fun e => match e with | .writeInput c => some c | _ => none

/-- The name of the source file written into the workspace, if any. -/
def HandlerResult.sourceName (r : HandlerResult) : Option String :=
  r.trace.findSome? fun e => match e with | .writeSource f _ => some f | _ => none

/-- A child process was spawned. -/
def HandlerResult.spawned (r : HandlerResult) : Bool :=
  r.command.isSome

/-! ## The cluster supervisor (`cluster.isMaster` branch, lines 36-47) -/

/-- Supervisor state: number of live workers and total `cluster.fork()`
calls performed. -/
structure ClusterState where
  workers : Nat
  forks : Nat
deriving DecidableEq, Repr

/-- Startup of the master process: the `for` loop forks one worker per
available CPU core. -/
def masterInit (numCPUs : Nat) : ClusterState :=
  ⟨numCPUs, numCPUs⟩

/-- The `cluster.on("exit", ...)` handler: the exited worker is gone and
exactly one replacement is forked, unconditionally (no backoff, no
crash-loop detection). -/
def onWorkerExit (s : ClusterState) : ClusterState :=
  ⟨s.workers - 1 + 1, s.forks + 1⟩

/-- Supervisor state after startup and `k` worker-exit events. -/
def masterAfterExits (numCPUs : Nat) : Nat → ClusterState
  | 0 => masterInit numCPUs
  | k + 1 => onWorkerExit (masterAfterExits numCPUs k)

/-- A 1001-character string, used as a single oversized input entry. -/
def bigInput : String := String.mk (List.replicate 1001 'a')

/-- The content `prepareInputFile` ends up writing to `input.txt` for a
given `input` value: the entries joined by `"\n"` when the value is an
array (`inputArray.join("\n")`), nothing otherwise (absent and falsy
values skip preparation; truthy non-arrays throw before writing). -/
def inputFileContent : InputVal → Option String
  | .arr xs => some (String.intercalate "\n" xs)
  | _ => none

/-! ## Helper lemmas about the execution step -/

theorem runExec_cleanups (language tempDir fileName : String)
    (inputContent : Option String) (code : String) (outcome : ExecOutcome) :
    (runExec language tempDir fileName inputContent code outcome).cleanups = 1 := by
  cases outcome <;> cases inputContent <;> rfl

theorem runExec_getLast (language tempDir fileName : String)
    (inputContent : Option String) (code : String) (outcome : ExecOutcome) :
    (runExec language tempDir fileName inputContent code outcome).trace.getLast? =
      some Ev.respond := by
  cases outcome <;> cases inputContent <;> rfl

theorem runExec_created (language tempDir fileName : String)
    (inputContent : Option String) (code : String) (outcome : ExecOutcome) :
    (runExec language tempDir fileName inputContent code outcome).created = true := by
  cases outcome <;> cases inputContent <;> rfl

theorem runExec_sourceName (language tempDir fileName : String)
    (inputContent : Option String) (code : String) (outcome : ExecOutcome) :
    (runExec language tempDir fileName inputContent code outcome).sourceName =
      some fileName := by
  cases outcome <;> cases inputContent <;> rfl

theorem runExec_inputFile (language tempDir fileName : String)
    (inputContent : Option String) (code : String) (outcome : ExecOutcome) :
    (runExec language tempDir fileName inputContent code outcome).inputFile =
      inputContent := by
  cases outcome <;> cases inputContent <;> rfl

theorem runExec_command (language tempDir fileName : String)
    (inputContent : Option String) (code : String) (outcome : ExecOutcome) :
    (runExec language tempDir fileName inputContent code outcome).command =
      some (executionCommand (jsToLower language) tempDir (tempDir ++ "/" ++ fileName)
        fileName (inputContent.map fun _ => tempDir ++ "/input.txt")) := by
  cases outcome <;> cases inputContent <;> rfl

theorem runExec_response (language tempDir fileName : String)
    (inputContent : Option String) (code : String) (outcome : ExecOutcome) :
    (runExec language tempDir fileName inputContent code outcome).response =
      execResponseOf outcome := by
  cases outcome <;> cases inputContent <;> rfl

/-! ## Helper lemmas about the try block -/

theorem tryBlock_some (code language : String) (input : InputVal)
    (tempDir fileName emsg : String) (outcome : ExecOutcome) :
    tryBlock code language input tempDir fileName (some emsg) outcome =
      ⟨⟨500, 202, emsg, "Internal server error occurred."⟩,
        [.mkdir, .cleanupDir, .respond]⟩ := rfl

theorem tryBlock_spec (code language : String) (input : InputVal)
    (tempDir fileName : String) (outcome : ExecOutcome) :
    tryBlock code language input tempDir fileName none outcome =
      if input.truthy ∧ ¬ input.isArray = true then
        ⟨⟨500, 202, "Input should be an array of strings.",
            "Internal server error occurred."⟩,
          [.mkdir, .writeSource fileName code, .cleanupDir, .respond]⟩
      else
        runExec language tempDir fileName (inputFileContent input) code outcome := by
  cases input with
  | absent => simp [tryBlock, InputVal.truthy, InputVal.isArray, inputFileContent]
  | arr xs => simp [tryBlock, InputVal.truthy, InputVal.isArray, inputFileContent]
  | str s =>
    by_cases hs : s = ""
    · subst hs; simp [tryBlock, InputVal.truthy, InputVal.isArray, inputFileContent]
    · simp [tryBlock, InputVal.truthy, InputVal.isArray, inputFileContent, hs]

theorem tryBlock_cleanups (code language : String) (input : InputVal)
    (tempDir fileName : String) (fsError : Option String)
    (outcome : ExecOutcome) :
    (tryBlock code language input tempDir fileName fsError outcome).cleanups = 1 := by
  cases fsError with
  | some e => rfl
  | none =>
    rw [tryBlock_spec]
    split
    · rfl
    · exact runExec_cleanups _ _ _ _ _ _

theorem tryBlock_getLast (code language : String) (input : InputVal)
    (tempDir fileName : String) (fsError : Option String)
    (outcome : ExecOutcome) :
    (tryBlock code language input tempDir fileName fsError outcome).trace.getLast? =
      some Ev.respond := by
  cases fsError with
  | some e => rfl
  | none =>
    rw [tryBlock_spec]
    split
    · rfl
    · exact runExec_getLast _ _ _ _ _ _

theorem tryBlock_created (code language : String) (input : InputVal)
    (tempDir fileName : String) (fsError : Option String)
    (outcome : ExecOutcome) :
    (tryBlock code language input tempDir fileName fsError outcome).created = true := by
  cases fsError with
  | some e => rfl
  | none =>
    rw [tryBlock_spec]
    split
    · rfl
    · exact runExec_created _ _ _ _ _ _

/-! ## String lemmas: a stderr containing `"error"` does not trim to empty -/

theorem startsWithList_mem {hay ned : List Char}
    (h : startsWithList hay ned = true) : ∀ c ∈ ned, c ∈ hay := by
  induction ned generalizing hay with
  | nil => intro c hc; cases hc
  | cons b bs ih =>
    cases hay with
    | nil => simp [startsWithList] at h
    | cons a as =>
      simp only [startsWithList, Bool.and_eq_true, decide_eq_true_eq] at h
      intro c hc
      rcases List.mem_cons.mp hc with rfl | hc
      · exact h.1 ▸ List.mem_cons_self _ _
      · exact List.mem_cons_of_mem _ (ih h.2 c hc)

theorem containsList_mem {hay ned : List Char}
    (h : containsList hay ned = true) : ∀ c ∈ ned, c ∈ hay := by
  induction hay with
  | nil =>
    simp only [containsList, List.isEmpty_iff] at h
    subst h; intro c hc; cases hc
  | cons a as ih =>
    simp only [containsList, Bool.or_eq_true] at h
    rcases h with h | h
    · exact startsWithList_mem h
    · exact fun c hc => List.mem_cons_of_mem _ (ih h c hc)

theorem jsTrim_empty_all_space {s : String} (h : jsTrim s = "") :
    ∀ c ∈ s.data, isJsSpace c = true := by
  have hdata : (((s.data.dropWhile isJsSpace).reverse.dropWhile isJsSpace).reverse :
      List Char) = [] := congrArg String.data h
  have hmid : (s.data.dropWhile isJsSpace).reverse.dropWhile isJsSpace = [] :=
    List.reverse_eq_nil_iff.mp hdata
  have hall : ∀ c ∈ (s.data.dropWhile isJsSpace).reverse, isJsSpace c = true :=
    List.dropWhile_eq_nil_iff.mp hmid
  intro c hc
  have hsplit : s.data.takeWhile isJsSpace ++ s.data.dropWhile isJsSpace = s.data :=
    List.takeWhile_append_dropWhile isJsSpace s.data
  rw [← hsplit] at hc
  rcases List.mem_append.mp hc with hc | hc
  · exact List.mem_takeWhile_imp hc
  · exact hall c (List.mem_reverse.mpr hc)

theorem strContains_error_jsTrim_ne {s : String}
    (h : strContains s "error" = true) : jsTrim s ≠ "" := by
  intro htrim
  have he : 'e' ∈ s.data := containsList_mem h 'e' (by decide)
  have := jsTrim_empty_all_space htrim 'e' he
  simp [isJsSpace] at this

/-! ## Characterization of the spawned command and the delivered response -/

theorem tryBlock_command (code language : String) (input : InputVal)
    (tempDir fileName : String) (fsError : Option String)
    (outcome : ExecOutcome) :
    (tryBlock code language input tempDir fileName fsError outcome).command =
      if input.truthy ∧ ¬ input.isArray = true then none
      else
        (tryBlock code language input tempDir fileName fsError outcome).sourceName.map
          fun f =>
            executionCommand (jsToLower language) tempDir (tempDir ++ "/" ++ f) f
              (if input.truthy then some (tempDir ++ "/input.txt") else none) := by
  cases fsError with
  | some e =>
    rw [tryBlock_some]
    split <;> rfl
  | none =>
    rw [tryBlock_spec]
    split
    · rename_i hbad
      rfl
    · rename_i hok
      rw [runExec_command, runExec_sourceName, Option.map_some']
      cases input with
      | absent => rfl
      | arr xs => rfl
      | str s =>
        by_cases hs : s = ""
        · subst hs; rfl
        · exact absurd ⟨by simp [InputVal.truthy, hs], by simp [InputVal.isArray]⟩ hok

theorem tryBlock_sourceName_none (code language : String) (input : InputVal)
    (tempDir fileName : String) (outcome : ExecOutcome) :
    (tryBlock code language input tempDir fileName none outcome).sourceName =
      some fileName := by
  rw [tryBlock_spec]
  split
  · rfl
  · exact runExec_sourceName _ _ _ _ _ _

theorem tryBlock_inputFile (code language : String) (input : InputVal)
    (tempDir fileName : String) (outcome : ExecOutcome) :
    (tryBlock code language input tempDir fileName none outcome).inputFile =
      inputFileContent input := by
  rw [tryBlock_spec]
  split
  · rename_i hbad
    cases input with
    | absent => rfl
    | arr xs => exact absurd hbad (by simp [InputVal.isArray])
    | str s => rfl
  · exact runExec_inputFile _ _ _ _ _ _

theorem tryBlock_spawned_response (code language : String) (input : InputVal)
    (tempDir fileName : String) (fsError : Option String) (outcome : ExecOutcome)
    (h : (tryBlock code language input tempDir fileName fsError outcome).spawned = true) :
    (tryBlock code language input tempDir fileName fsError outcome).response =
      execResponseOf outcome := by
  cases fsError with
  | some e => exact Bool.noConfusion h
  | none =>
    by_cases hbad : input.truthy ∧ ¬ input.isArray = true
    · rw [tryBlock_spec, if_pos hbad] at h
      exact Bool.noConfusion h
    · rw [tryBlock_spec, if_neg hbad]
      exact runExec_response _ _ _ _ _ _

theorem runProgram_spawned_response (code language : String) (input : InputVal)
    (dirname token : String) (fsError : Option String) (outcome : ExecOutcome)
    (h : (runProgram code language input dirname token fsError outcome).spawned = true) :
    (runProgram code language input dirname token fsError outcome).response =
      execResponseOf outcome := by
  revert h
  simp only [runProgram]
  split
  · intro h; exact Bool.noConfusion h
  · split
    · intro h; exact Bool.noConfusion h
    · split
      · intro h; exact Bool.noConfusion h
      · split
        · split
          · exact fun h => tryBlock_spawned_response _ _ _ _ _ _ _ h
          · intro h; exact Bool.noConfusion h
        · exact fun h => tryBlock_spawned_response _ _ _ _ _ _ _ h

theorem runProgram_command_char (code language : String) (input : InputVal)
    (dirname token : String) (fsError : Option String) (outcome : ExecOutcome) :
    (runProgram code language input dirname token fsError outcome).command =
      if input.truthy ∧ ¬ input.isArray = true then none
      else
        (runProgram code language input dirname token fsError outcome).sourceName.map
          fun f =>
            executionCommand (jsToLower language) (dirname ++ "/temp/" ++ token)
              (dirname ++ "/temp/" ++ token ++ "/" ++ f) f
              (if input.truthy then some (dirname ++ "/temp/" ++ token ++ "/input.txt")
               else none) := by
  simp only [runProgram]
  split
  · split <;> rfl
  · split
    · split <;> rfl
    · split
      · split <;> rfl
      · split
        · split
          · exact tryBlock_command _ _ _ _ _ _ _
          · split <;> rfl
        · exact tryBlock_command _ _ _ _ _ _ _

/-! ## The claims -/

/-- Claim C1 (confirmed): for every request for which the workspace
directory is successfully created, removal of that directory is attempted
exactly once before the HTTP response is delivered, on every path:
unsupported language, missing Java class name, successful execution,
timeout, execution error, and any internal exception during
materialization. Creation, cleanups and the response are read off the
request's event trace; the trace ending in the response event expresses
"before the response is delivered". -/
theorem claim_C1_cleanup_exactly_once (code language : String) (input : InputVal)
    (dirname token : String) (fsError : Option String) (outcome : ExecOutcome)
    (h : (runProgram code language input dirname token fsError outcome).created = true) :
    (runProgram code language input dirname token fsError outcome).cleanups = 1 ∧
    (runProgram code language input dirname token fsError outcome).trace.getLast? =
      some Ev.respond := by
  revert h
  simp only [runProgram]
  split
  · intro h; exact Bool.noConfusion h
  · split
    · intro h; exact Bool.noConfusion h
    · split
      · exact fun _ => ⟨rfl, rfl⟩
      · split
        · split
          · exact fun _ =>
              ⟨tryBlock_cleanups _ _ _ _ _ _ _, tryBlock_getLast _ _ _ _ _ _ _⟩
          · exact fun _ => ⟨rfl, rfl⟩
        · exact fun _ =>
            ⟨tryBlock_cleanups _ _ _ _ _ _ _, tryBlock_getLast _ _ _ _ _ _ _⟩

/-- Witness for C1: a successful python run creates the workspace and
cleans it up exactly once before responding. -/
theorem claim_C1_witness :
    (runProgram "print(1)" "python" .absent "d" "t" none (.ok "2")).created = true ∧
    ((runProgram "print(1)" "python" .absent "d" "t" none (.ok "2")).cleanups = 1 ∧
     (runProgram "print(1)" "python" .absent "d" "t" none (.ok "2")).trace.getLast? =
       some Ev.respond) :=
  ⟨by decide, claim_C1_cleanup_exactly_once "print(1)" "python" .absent "d" "t" none
    (.ok "2") (by decide)⟩

/-- Counterexample to C2 as stated: on a timed-out execution the handler
places the timeout text — reading "Execution timed out after 30 seconds.",
not "Execution timed out after the configured duration." — in the `output`
field, and leaves `errorMessage` empty; the claim asserts the opposite
placement. -/
theorem claim_C2_counterexample :
    (runProgram "print(1)" "python" .absent "d" "t" none .timeout).response.responseCode
        = 202 ∧
    (runProgram "print(1)" "python" .absent "d" "t" none .timeout).response.output =
      "Execution timed out after 30 seconds." ∧
    (runProgram "print(1)" "python" .absent "d" "t" none .timeout).response.errorMessage
        = "" ∧
    ¬((runProgram "print(1)" "python" .absent "d" "t" none .timeout).response.output = ""
      ∧ (runProgram "print(1)" "python" .absent "d" "t"
          none .timeout).response.errorMessage =
        "Execution timed out after the configured duration.") := by
  decide

/-- Claim C2 (amended): for every request whose execution is killed by the
timeout, the envelope is responseCode 202 (HTTP 500) with the message
"Execution timed out after 30 seconds." in the `output` field and an empty
`errorMessage` field. -/
theorem claim_C2_timeout_envelope (code language : String) (input : InputVal)
    (dirname token : String) (fsError : Option String)
    (h : (runProgram code language input dirname token fsError .timeout).spawned = true) :
    (runProgram code language input dirname token fsError .timeout).response =
      ⟨500, 202, "Execution timed out after 30 seconds.", ""⟩ :=
  runProgram_spawned_response code language input dirname token fsError .timeout h

/-- Witness for the amended C2: a python run with stdin that times out. -/
theorem claim_C2_witness :
    (runProgram "print(1)" "python" (.arr ["x"]) "d" "t" none .timeout).spawned = true ∧
    (runProgram "print(1)" "python" (.arr ["x"]) "d" "t" none .timeout).response =
      ⟨500, 202, "Execution timed out after 30 seconds.", ""⟩ :=
  ⟨by decide,
    claim_C2_timeout_envelope "print(1)" "python" (.arr ["x"]) "d" "t" none (by decide)⟩

/-- Claim C9 (confirmed): the supervisor forks exactly one worker per
available CPU core at startup, and after any number of worker exits —
each exit forking exactly one replacement, with no backoff or crash-loop
detection — the pool size is still the number of cores, with total forks
equal to the startup forks plus one per exit. -/
theorem claim_C9_supervisor_pool (numCPUs k : Nat) (h : 0 < numCPUs) :
    (masterAfterExits numCPUs k).workers = numCPUs ∧
    (masterAfterExits numCPUs k).forks = numCPUs + k := by
  induction k with
  | zero => exact ⟨rfl, rfl⟩
  | succ k ih =>
    refine ⟨?_, ?_⟩
    · show (masterAfterExits numCPUs k).workers - 1 + 1 = numCPUs
      rw [ih.1]; omega
    · show (masterAfterExits numCPUs k).forks + 1 = numCPUs + (k + 1)
      rw [ih.2]; omega

/-- Witness for C9: eight cores, five worker exits. -/
theorem claim_C9_witness :
    0 < 8 ∧ ((masterAfterExits 8 5).workers = 8 ∧ (masterAfterExits 8 5).forks = 13) :=
  ⟨by decide, claim_C9_supervisor_pool 8 5 (by decide)⟩

/-- Counterexample to C3 as stated: a request with missing code gets
envelope responseCode 203 (with HTTP status 400), not responseCode 400 as
the claim asserts for all validation failures. -/
theorem claim_C3_counterexample :
    (runProgram "" "python" .absent "d" "t" none (.ok "")).response.status = 400 ∧
    (runProgram "" "python" .absent "d" "t" none (.ok "")).response.responseCode = 203 ∧
    (runProgram "" "python" .absent "d" "t" none (.ok "")).response.responseCode ≠ 400 := by
  decide

/-- Claim C3 (amended): every request that fails validation before
execution (missing code or language, oversized payload, unsupported
language, or missing Java class name) receives HTTP status 400 with a
validation message in the output field and no process is spawned; the
envelope responseCode is not uniformly 400: it is 400 exactly when the
request reaches the Java class-name check and fails there (code and
language present, size admitted, language `java`, no class-name match),
and 203 on every other validation branch (missing fields, oversized
payload, unsupported language). -/
theorem claim_C3_validation_envelope (code language : String) (input : InputVal)
    (dirname token : String) (fsError : Option String) (outcome : ExecOutcome)
    (h : code = "" ∨ language = "" ∨
         code.length > 5000 ∨ (input.truthy ∧ input.jsLength > 1000) ∨
         fileExtensions (jsToLower language) = none ∨
         (jsToLower language = "java" ∧ classMatch code.data = none)) :
    (runProgram code language input dirname token fsError outcome).response.status = 400 ∧
    (runProgram code language input dirname token fsError outcome).spawned = false ∧
    (runProgram code language input dirname token fsError outcome).response.output ≠ "" ∧
    (runProgram code language input dirname token fsError outcome).response.responseCode
      = (if ¬(code = "" ∨ language = "") ∧
            ¬(code.length > 5000 ∨ (input.truthy ∧ input.jsLength > 1000)) ∧
            jsToLower language = "java" ∧ classMatch code.data = none
         then 400 else 203) := by
  simp only [runProgram]
  split
  · rename_i hc1
    refine ⟨rfl, rfl, by decide, ?_⟩
    rw [if_neg (fun hx => hx.1 hc1)]
  · rename_i hc1
    split
    · rename_i hc2
      refine ⟨rfl, rfl, by decide, ?_⟩
      rw [if_neg (fun hx => hx.2.1 hc2)]
    · rename_i hc2
      split
      · rename_i hext
        refine ⟨rfl, rfl, by decide, ?_⟩
        rw [if_neg (fun hx => by rw [hx.2.2.1] at hext; exact Option.noConfusion hext)]
      · rename_i ext hext
        split
        · rename_i hj
          split
          · exfalso; rcases h with h | h | h | h | h | ⟨h1, h2⟩ <;> simp_all
          · rename_i hcm
            refine ⟨rfl, rfl, by decide, ?_⟩
            rw [if_pos ⟨hc1, hc2, hj, hcm⟩]
        · rename_i hj
          exfalso; rcases h with h | h | h | h | h | ⟨h1, h2⟩ <;> simp_all

/-- Witness for the amended C3: a request with missing code. -/
theorem claim_C3_witness :
    (("" : String) = "" ∨ ("python" : String) = "" ∨
     ("" : String).length > 5000 ∨
     (InputVal.absent.truthy ∧ InputVal.absent.jsLength > 1000) ∨
     fileExtensions (jsToLower "python") = none ∨
     (jsToLower "python" = "java" ∧ classMatch ("" : String).data = none)) ∧
    ((runProgram "" "python" .absent "d" "t" none (.ok "")).response.status = 400 ∧
     (runProgram "" "python" .absent "d" "t" none (.ok "")).spawned = false ∧
     (runProgram "" "python" .absent "d" "t" none (.ok "")).response.output ≠ "" ∧
     (runProgram "" "python" .absent "d" "t" none (.ok "")).response.responseCode =
       (if ¬(("" : String) = "" ∨ ("python" : String) = "") ∧
           ¬(("" : String).length > 5000 ∨
             (InputVal.absent.truthy ∧ InputVal.absent.jsLength > 1000)) ∧
           jsToLower "python" = "java" ∧ classMatch ("" : String).data = none
        then 400 else 203)) :=
  ⟨Or.inl rfl,
    claim_C3_validation_envelope "" "python" .absent "d" "t" none (.ok "") (Or.inl rfl)⟩

/-- Counterexample to C4 as stated: a request whose single input entry
joins to 1001 characters (exceeding the claimed joined-length bound of
1000) with short code is nevertheless admitted and runs to success — the
code tests `input.length`, the number of array entries, never the joined
length. -/
theorem claim_C4_counterexample :
    (String.intercalate "\n" [bigInput]).length > 1000 ∧
    ("x" : String).length ≤ 5000 ∧
    (runProgram "x" "python" (.arr [bigInput]) "d" "t" none (.ok "")).created = true ∧
    (runProgram "x" "python" (.arr [bigInput]) "d" "t" none
        (.ok "")).response.responseCode = 201 := by
  set_option maxRecDepth 100000 in decide

/-- Claim C4 (amended): a request with code and language present is
rejected by the size check — envelope
⟨400, 203, "Code or input is too large. Please limit their sizes.", ""⟩,
no workspace created — if and only if its code exceeds 5000 characters or
its input is truthy with JS `length` exceeding 1000, where `length`
counts array entries for an array (not the joined characters) and
characters for a string. -/
theorem claim_C4_size_check_iff (code language : String) (input : InputVal)
    (dirname token : String) (fsError : Option String) (outcome : ExecOutcome)
    (h : ¬(code = "" ∨ language = "")) :
    ((runProgram code language input dirname token fsError outcome).response =
        ⟨400, 203, "Code or input is too large. Please limit their sizes.", ""⟩ ∧
     (runProgram code language input dirname token fsError outcome).created = false)
    ↔ (code.length > 5000 ∨ (input.truthy ∧ input.jsLength > 1000)) := by
  constructor
  · intro hc
    by_contra hno
    have hcr : (runProgram code language input dirname token fsError outcome).created
        = true := by
      simp only [runProgram, if_neg h, if_neg hno]
      split
      · rfl
      · split
        · split
          · exact tryBlock_created _ _ _ _ _ _ _
          · rfl
        · exact tryBlock_created _ _ _ _ _ _ _
    rw [hc.2] at hcr
    exact Bool.noConfusion hcr
  · intro hs
    have hr : runProgram code language input dirname token fsError outcome =
        ⟨⟨400, 203, "Code or input is too large. Please limit their sizes.", ""⟩,
          [.respond]⟩ := by
      simp only [runProgram]
      rw [if_neg h, if_pos hs]
    rw [hr]
    exact ⟨rfl, rfl⟩

/-- Witness for the amended C4: 1001 empty input entries (joined length
1000) are rejected by the size check. -/
theorem claim_C4_witness :
    ¬(("x" : String) = "" ∨ ("python" : String) = "") ∧
    (((runProgram "x" "python" (.arr (List.replicate 1001 "")) "d" "t" none
          (.ok "")).response =
        ⟨400, 203, "Code or input is too large. Please limit their sizes.", ""⟩ ∧
      (runProgram "x" "python" (.arr (List.replicate 1001 "")) "d" "t" none
          (.ok "")).created = false)
     ↔ (("x" : String).length > 5000 ∨
        ((InputVal.arr (List.replicate 1001 "")).truthy ∧
         (InputVal.arr (List.replicate 1001 "")).jsLength > 1000))) :=
  ⟨by decide,
    claim_C4_size_check_iff "x" "python" (.arr (List.replicate 1001 "")) "d" "t" none
      (.ok "") (by decide)⟩

/-- Counterexample to C5 as stated: two java requests with the same
language, the same workspace token and the same (absent) input file, but
different submitted code, produce different command strings — the class
name extracted from the code reaches the command directly. -/
theorem claim_C5_counterexample :
    (runProgram "class A {}" "java" .absent "d" "t" none (.ok "")).inputFile =
      (runProgram "class B {}" "java" .absent "d" "t" none (.ok "")).inputFile ∧
    (runProgram "class A {}" "java" .absent "d" "t" none (.ok "")).command =
      some "javac d/temp/t/A.java && java -cp d/temp/t A" ∧
    (runProgram "class B {}" "java" .absent "d" "t" none (.ok "")).command =
      some "javac d/temp/t/B.java && java -cp d/temp/t B" ∧
    (runProgram "class A {}" "java" .absent "d" "t" none (.ok "")).command ≠
      (runProgram "class B {}" "java" .absent "d" "t" none (.ok "")).command := by
  decide

/-- Claim C5 (amended): the command depends on the submitted code only
through the source-file name it determines (for java, the extracted class
name): two requests with the same language, workspace token, and input
value whose source files get the same name receive identical command
strings, whatever their code content. -/
theorem claim_C5_command_independent (code1 code2 language : String) (input : InputVal)
    (dirname token : String) (fsError : Option String) (o1 o2 : ExecOutcome)
    (h : (runProgram code1 language input dirname token fsError o1).sourceName =
         (runProgram code2 language input dirname token fsError o2).sourceName) :
    (runProgram code1 language input dirname token fsError o1).command =
      (runProgram code2 language input dirname token fsError o2).command := by
  rw [runProgram_command_char, runProgram_command_char, h]

/-- Witness for the amended C5: two python requests with different code
share the source name `Program.py` and the same command. -/
theorem claim_C5_witness :
    (runProgram "print(1)" "python" .absent "d" "t" none (.ok "")).sourceName =
      (runProgram "print(2)" "python" .absent "d" "t" none (.ok "")).sourceName ∧
    (runProgram "print(1)" "python" .absent "d" "t" none (.ok "")).command =
      (runProgram "print(2)" "python" .absent "d" "t" none (.ok "")).command :=
  ⟨by decide,
    claim_C5_command_independent "print(1)" "print(2)" "python" .absent "d" "t" none
      (.ok "") (.ok "") (by decide)⟩

/-- Counterexample to C6 as stated: an empty input array is truthy in JS,
so `input.txt` IS written — with empty content — and the request still
runs; the claim asserts an empty input array produces no input file. -/
theorem claim_C6_counterexample :
    (runProgram "x" "python" (.arr []) "d" "t" none (.ok "")).spawned = true ∧
    (runProgram "x" "python" (.arr []) "d" "t" none (.ok "")).inputFile = some "" := by
  decide

/-- Claim C6 (amended): for every request that reaches materialization
with a successful source write, the input file exists if and only if the
`input` field was supplied as an array — including the empty array, which
produces an input file with empty content; the content is the entries
joined by newline; a truthy non-array input produces no file (preparation
throws before writing). -/
theorem claim_C6_input_file (code language : String) (input : InputVal)
    (dirname token : String) (outcome : ExecOutcome)
    (h1 : ¬(code = "" ∨ language = ""))
    (h2 : ¬(code.length > 5000 ∨ (input.truthy ∧ input.jsLength > 1000)))
    (h3 : (fileExtensions (jsToLower language)).isSome = true)
    (h4 : jsToLower language = "java" → (classMatch code.data).isSome = true) :
    (runProgram code language input dirname token none outcome).inputFile =
      inputFileContent input := by
  simp only [runProgram]
  rw [if_neg h1, if_neg h2]
  cases hext : fileExtensions (jsToLower language) with
  | none => rw [hext] at h3; exact Bool.noConfusion h3
  | some ext =>
    simp only [hext]
    by_cases hj : jsToLower language = "java"
    · rw [if_pos hj]
      cases hcm : classMatch code.data with
      | none =>
        have h5 := h4 hj
        rw [hcm] at h5
        exact Bool.noConfusion h5
      | some cn =>
        simp only [hcm]
        exact tryBlock_inputFile _ _ _ _ _ _
    · rw [if_neg hj]
      exact tryBlock_inputFile _ _ _ _ _ _

/-- Witness for the amended C6: a two-entry input array yields an input
file joining the entries with a newline. -/
theorem claim_C6_witness :
    (¬(("x" : String) = "" ∨ ("python" : String) = "")) ∧
    (¬(("x" : String).length > 5000 ∨
       ((InputVal.arr ["a", "b"]).truthy ∧ (InputVal.arr ["a", "b"]).jsLength > 1000))) ∧
    (fileExtensions (jsToLower "python")).isSome = true ∧
    (jsToLower "python" = "java" → (classMatch ("x" : String).data).isSome = true) ∧
    (runProgram "x" "python" (.arr ["a", "b"]) "d" "t" none (.ok "")).inputFile =
      inputFileContent (.arr ["a", "b"]) :=
  ⟨by decide, by decide, by decide, by decide,
    claim_C6_input_file "x" "python" (.arr ["a", "b"]) "d" "t" (.ok "")
      (by decide) (by decide) (by decide) (by decide)⟩

/-- Claim C7 (confirmed): for every java request that passes the earlier
checks, the source file name is `<Identifier>.java` where Identifier is
the capture of the first (leftmost) match of the pattern — the literal
`class` followed by whitespace and a valid identifier, i.e. the regex
`/class\s+([a-zA-Z_$][a-zA-Z\d_$]*)/` — in the code; when no match exists
the request fails with the validation envelope
⟨400, 400, "Invalid Java code. Class name is missing.", ""⟩ ("class name
missing") and no process is spawned. -/
theorem claim_C7_java_class_name (code language : String) (input : InputVal)
    (dirname token : String) (fsError : Option String) (outcome : ExecOutcome)
    (h1 : ¬(code = "" ∨ language = ""))
    (h2 : ¬(code.length > 5000 ∨ (input.truthy ∧ input.jsLength > 1000)))
    (hj : jsToLower language = "java") :
    (∀ cn, classMatch code.data = some cn →
      (runProgram code language input dirname token none outcome).sourceName =
        some (cn ++ ".java")) ∧
    (classMatch code.data = none →
      (runProgram code language input dirname token fsError outcome).response =
        ⟨400, 400, "Invalid Java code. Class name is missing.", ""⟩ ∧
      (runProgram code language input dirname token fsError outcome).spawned = false) := by
  have hext : fileExtensions (jsToLower language) = some "java" := by rw [hj]; rfl
  constructor
  · intro cn hcn
    simp only [runProgram]
    rw [if_neg h1, if_neg h2]
    simp only [hext]
    rw [if_pos hj]
    simp only [hcn]
    exact tryBlock_sourceName_none _ _ _ _ _ _
  · intro hcm
    simp only [runProgram]
    rw [if_neg h1, if_neg h2]
    simp only [hext]
    rw [if_pos hj]
    simp only [hcm]
    exact ⟨trivial, rfl⟩

/-- Witness for C7: `class Hello { }` is materialized as `Hello.java`. -/
theorem claim_C7_witness :
    (¬(("class Hello { }" : String) = "" ∨ ("java" : String) = "")) ∧
    (¬(("class Hello { }" : String).length > 5000 ∨
       (InputVal.absent.truthy ∧ InputVal.absent.jsLength > 1000))) ∧
    jsToLower "java" = "java" ∧
    classMatch ("class Hello { }" : String).data = some "Hello" ∧
    (runProgram "class Hello { }" "java" .absent "d" "t" none (.ok "")).sourceName =
      some ("Hello" ++ ".java") :=
  ⟨by decide, by decide, by decide, by decide,
    (claim_C7_java_class_name "class Hello { }" "java" .absent "d" "t" none (.ok "")
        (by decide) (by decide) (by decide)).1 "Hello" (by decide)⟩

/-- Claim C8 (confirmed): for every request whose execution reports a
non-timeout error, if the captured stderr contains the substring
`"error"` the response is responseCode 202 (HTTP 500) with output the
trimmed stderr and message "Compilation error occurred."; otherwise it is
responseCode 202 with output the trimmed stderr — or the error's own
message when stderr is empty after trimming — and message "Runtime error
occurred.". -/
theorem claim_C8_error_classification (code language : String) (input : InputVal)
    (dirname token : String) (fsError : Option String) (stderr emsg : String)
    (h : (runProgram code language input dirname token fsError
            (.err stderr emsg)).spawned = true) :
    (strContains stderr "error" = true →
      (runProgram code language input dirname token fsError (.err stderr emsg)).response =
        ⟨500, 202, jsTrim stderr, "Compilation error occurred."⟩) ∧
    (strContains stderr "error" = false →
      (runProgram code language input dirname token fsError (.err stderr emsg)).response =
        ⟨500, 202, (if jsTrim stderr = "" then emsg else jsTrim stderr),
          "Runtime error occurred."⟩) := by
  have hresp := runProgram_spawned_response code language input dirname token fsError
    (.err stderr emsg) h
  constructor
  · intro hc
    rw [hresp]
    simp only [execResponseOf]
    rw [if_neg (strContains_error_jsTrim_ne hc), if_pos hc]
  · intro hc
    rw [hresp]
    simp [execResponseOf, hc]

/-- Witness for C8: a stderr containing `"error"` is classified as a
compilation error with the trimmed stderr as output. -/
theorem claim_C8_witness :
    (runProgram "x" "python" .absent "d" "t" none
        (.err " Syntax error: bad " "m")).spawned = true ∧
    ((strContains " Syntax error: bad " "error" = true →
       (runProgram "x" "python" .absent "d" "t" none
           (.err " Syntax error: bad " "m")).response =
         ⟨500, 202, jsTrim " Syntax error: bad ", "Compilation error occurred."⟩) ∧
     (strContains " Syntax error: bad " "error" = false →
       (runProgram "x" "python" .absent "d" "t" none
           (.err " Syntax error: bad " "m")).response =
         ⟨500, 202,
           (if jsTrim " Syntax error: bad " = "" then "m"
            else jsTrim " Syntax error: bad "),
           "Runtime error occurred."⟩)) :=
  ⟨by decide,
    claim_C8_error_classification "x" "python" .absent "d" "t" none
      " Syntax error: bad " "m" (by decide)⟩

/-- Counterexample to C10 as stated: the empty string is a supplied
non-array input value that passes the size check, yet — being falsy — it
skips input-file preparation entirely and the request executes normally
(success envelope), instead of producing the internal-error envelope the
claim asserts for every non-array input. -/
theorem claim_C10_counterexample :
    (runProgram "print(1)" "python" (.str "") "d" "t" none (.ok "hi")).response =
      ⟨200, 201, "hi", ""⟩ ∧
    (runProgram "print(1)" "python" (.str "") "d" "t" none
        (.ok "hi")).response.responseCode ≠ 202 ∧
    (runProgram "print(1)" "python" (.str "") "d" "t" none
        (.ok "hi")).response.errorMessage ≠ "Internal server error occurred." := by
  decide

/-- Claim C10 (amended): for every request whose input is supplied as a
truthy non-array value (a non-empty string) passing the size check and
the other validations, the handler responds with HTTP 500,
responseCode 202 and errorMessage "Internal server error occurred."
(input-file preparation throws and the handler catch block converts it),
rather than with a request-validation response; the workspace is created
and cleaned up exactly once and no process is spawned. -/
theorem claim_C10_nonarray_input (code language s dirname token : String)
    (outcome : ExecOutcome)
    (h1 : ¬(code = "" ∨ language = ""))
    (h2 : ¬(code.length > 5000 ∨
            ((InputVal.str s).truthy ∧ (InputVal.str s).jsLength > 1000)))
    (hs : s ≠ "")
    (h3 : (fileExtensions (jsToLower language)).isSome = true)
    (h4 : jsToLower language = "java" → (classMatch code.data).isSome = true) :
    (runProgram code language (.str s) dirname token none outcome).response =
      ⟨500, 202, "Input should be an array of strings.",
        "Internal server error occurred."⟩ ∧
    (runProgram code language (.str s) dirname token none outcome).created = true ∧
    (runProgram code language (.str s) dirname token none outcome).cleanups = 1 ∧
    (runProgram code language (.str s) dirname token none outcome).spawned = false := by
  have hbad : (InputVal.str s).truthy ∧ ¬ (InputVal.str s).isArray = true :=
    ⟨by simp [InputVal.truthy, hs], by simp [InputVal.isArray]⟩
  simp only [runProgram]
  rw [if_neg h1, if_neg h2]
  cases hext : fileExtensions (jsToLower language) with
  | none => rw [hext] at h3; exact Bool.noConfusion h3
  | some ext =>
    simp only [hext]
    by_cases hj : jsToLower language = "java"
    · rw [if_pos hj]
      cases hcm : classMatch code.data with
      | none =>
        have h5 := h4 hj
        rw [hcm] at h5
        exact Bool.noConfusion h5
      | some cn =>
        simp only [hcm]
        rw [tryBlock_spec, if_pos hbad]
        exact ⟨rfl, rfl, rfl, rfl⟩
    · rw [if_neg hj]
      rw [tryBlock_spec, if_pos hbad]
      exact ⟨rfl, rfl, rfl, rfl⟩

/-- Witness for the amended C10: a non-empty string input yields the
internal-error envelope with the workspace cleaned up. -/
theorem claim_C10_witness :
    (¬(("x" : String) = "" ∨ ("python" : String) = "")) ∧
    (¬(("x" : String).length > 5000 ∨
       ((InputVal.str "abc").truthy ∧ (InputVal.str "abc").jsLength > 1000))) ∧
    ("abc" : String) ≠ "" ∧
    (fileExtensions (jsToLower "python")).isSome = true ∧
    (jsToLower "python" = "java" → (classMatch ("x" : String).data).isSome = true) ∧
    ((runProgram "x" "python" (.str "abc") "d" "t" none (.ok "")).response =
      ⟨500, 202, "Input should be an array of strings.",
        "Internal server error occurred."⟩ ∧
     (runProgram "x" "python" (.str "abc") "d" "t" none (.ok "")).created = true ∧
     (runProgram "x" "python" (.str "abc") "d" "t" none (.ok "")).cleanups = 1 ∧
     (runProgram "x" "python" (.str "abc") "d" "t" none (.ok "")).spawned = false) :=
  ⟨by decide, by decide, by decide, by decide, by decide,
    claim_C10_nonarray_input "x" "python" "abc" "d" "t" (.ok "")
      (by decide) (by decide) (by decide) (by decide) (by decide)⟩

end CodeRunner
